import Mathlib

/-!
Shallow embedding of the core of the wires WebDriver bridge
(src/common.rs and src/messagebuilder.rs), together with theorems
settling the specification claims about it.

Modelling conventions:
- JSON values (serialize::json::Json) are an inductive type; the TreeMap
  backing JSON objects is modelled as an association list and TreeMap::get
  as first-key lookup.  The F64 variant carries no payload: none of the
  embedded operations inspects a float value, they only dispatch on the
  variant.
- Fallible Rust functions returning WebDriverResult become Except.
- Registration-time panics (fail! in compile_path, unwrap in
  RequestMatcher::new) are modelled as Option, none meaning the abort.
- The compiled route regex is modelled structurally: compile_path emits,
  per path component, either a literal component or a named capture
  standing for the regex group matching one or more non-separator
  characters.  The whole pattern is anchored at both ends, so a path
  matches exactly when its slash-separated component list matches the
  compiled component list pointwise.  Literal components are matched
  verbatim, as the source interpolates them into the regex unescaped.
- The final Regex::new on the emitted pattern string, whose unwrap makes
  registration abort when the regex library rejects the pattern, is
  modelled by regex_new, a conservative validity check on the emitted
  sublanguage: it accepts exactly the component lists whose literal
  components consist of regex-literal characters (ASCII alphanumerics,
  underscore, hyphen) and whose capture groups carry pairwise distinct
  identifier-shaped names.  The library accepts every pattern the model
  accepts, and also rejects the concrete rejected inputs stated by the
  theorems below (an unmatched parenthesis interpolated into the regex);
  on emitted patterns outside this sublanguage the model errs only on
  the side of rejecting, so no success theorem overstates the source.
- Rust str::split is reimplemented on character lists so that all
  definitions reduce inside the kernel.
-/

namespace Wires

/-- ErrorStatus from src/common.rs: the closed WebDriver error vocabulary. -/
inductive ErrorStatus where
  | ElementNotSelectable
  | ElementNotVisible
  | InvalidArgument
  | InvalidCookieDomain
  | InvalidElementCoordinates
  | InvalidElementState
  | InvalidSelector
  | InvalidSessionId
  | JavascriptError
  | MoveTargetOutOfBounds
  | NoSuchAlert
  | NoSuchElement
  | NoSuchFrame
  | NoSuchWindow
  | ScriptTimeout
  | SessionNotCreated
  | StaleElementReference
  | Timeout
  | UnableToSetCookie
  | UnexpectedAlertOpen
  | UnknownError
  | UnknownPath
  | UnknownMethod
  | UnsupportedOperation
deriving DecidableEq, Fintype

/-- WebDriverError from src/common.rs: status plus human message. -/
structure WebDriverError where
  status : ErrorStatus
  message : String
deriving DecidableEq

/-- WebDriverError::new. -/
def WebDriverError.new (status : ErrorStatus) (message : String) : WebDriverError :=
  { status := status, message := message }

/-- WebDriverError::status_code: the wire string of the carried status. -/
def WebDriverError.status_code (self : WebDriverError) : String :=
  match self.status with
  | .ElementNotSelectable => "element not selectable"
  | .ElementNotVisible => "element not visible"
  | .InvalidArgument => "invalid argument"
  | .InvalidCookieDomain => "invalid cookie domain"
  | .InvalidElementCoordinates => "invalid element coordinates"
  | .InvalidElementState => "invalid element state"
  | .InvalidSelector => "invalid selector"
  | .InvalidSessionId => "invalid session id"
  | .JavascriptError => "javascript error"
  | .MoveTargetOutOfBounds => "move target out of bounds"
  | .NoSuchAlert => "no such alert"
  | .NoSuchElement => "no such element"
  | .NoSuchFrame => "no such frame"
  | .NoSuchWindow => "no such window"
  | .ScriptTimeout => "script timeout"
  | .SessionNotCreated => "session not created"
  | .StaleElementReference => "stale element reference"
  | .Timeout => "timeout"
  | .UnableToSetCookie => "unable to set cookie"
  | .UnexpectedAlertOpen => "unexpected alert open"
  | .UnknownError => "unknown error"
  | .UnknownPath => "unknown command"
  | .UnknownMethod => "unknown command"
  | .UnsupportedOperation => "unsupported operation"

/-- WebDriverError::http_status. -/
def WebDriverError.http_status (self : WebDriverError) : Int :=
  match self.status with
  | .UnknownPath => 404
  | .UnknownMethod => 405
  | _ => 500

/-- serialize::json::Json, the JSON value type used by the codecs. -/
inductive Json where
  | Null : Json
  | Boolean : Bool → Json
  | I64 : Int → Json
  | U64 : Nat → Json
  | F64 : Json
  | String : String → Json
  | Array : List Json → Json
  | Object : List (String × Json) → Json

/-- WebDriverResult from src/common.rs. -/
abbrev WebDriverResult (T : Type) := Except WebDriverError T

/-- Alias for the Lean string type, needed inside the Json namespace where
the bare name String denotes the Json constructor. -/
abbrev Str := String

/-- Json::is_null. -/
def Json.is_null : Json → Bool
  | .Null => true
  | _ => false

/-- Json::as_object: Some for the Object variant, None otherwise. -/
def Json.as_object : Json → Option (List (Str × Json))
  | .Object o => some o
  | _ => none

/-- Json::as_string: Some for the String variant, None otherwise. -/
def Json.as_string : Json → Option Str
  | .String s => some s
  | _ => none

/-- TreeMap::get modelled on the association list backing a JSON object. -/
def object_get (obj : List (String × Json)) (key : String) : Option Json :=
  match obj with
  | [] => none
  | (k, v) :: rest => if k = key then some v else object_get rest key

/-- The ParserError of serialize::json, modelled by the message its Show
rendering produces, which is all the conversion into WebDriverError uses. -/
structure ParserError where
  rendered : String

/-- FromError for ParserError in src/common.rs: every JSON parse failure
becomes an UnknownError carrying the rendered parser message. -/
def WebDriverError.from_error (err : ParserError) : WebDriverError :=
  WebDriverError.new .UnknownError err.rendered

/-- Nullable from src/common.rs. -/
inductive Nullable (T : Type) where
  | Value : T → Nullable T
  | Null : Nullable T
deriving DecidableEq

/-- Nullable::from_json: null decodes to Null, anything else goes through
the caller-supplied element decoder, whose error propagates unchanged. -/
def Nullable.from_json {T : Type} (value : Json)
    (f : Json → WebDriverResult T) : WebDriverResult (Nullable T) :=
  if value.is_null then
    .ok .Null
  else
    match f value with
    | .ok x => .ok (.Value x)
    | .error e => .error e

/-- ToJson for Nullable, parameterised by the element encoder standing for
the ToJson bound on T. -/
def Nullable.to_json {T : Type} (enc : T → Json) : Nullable T → Json
  | .Value x => enc x
  | .Null => Json.Null

/-- WebElement from src/common.rs. -/
structure WebElement where
  id : String
deriving DecidableEq

/-- WebElement::new. -/
def WebElement.new (id : String) : WebElement :=
  { id := id }

/-- WebElement::from_json: requires an object carrying the W3C element key
bound to a string; each other shape fails with InvalidArgument. -/
def WebElement.from_json (data : Json) : WebDriverResult WebElement :=
  match data.as_object with
  | none => .error (WebDriverError.new .InvalidArgument
      "Could not convert webelement to object")
  | some object =>
    match object_get object "element-6066-11e4-a52e-4f735466cecf" with
    | none => .error (WebDriverError.new .InvalidArgument
        "Could not find webelement key")
    | some key_value =>
      match key_value.as_string with
      | none => .error (WebDriverError.new .InvalidArgument
          "Could not convert web element to string")
      | some key => .ok (WebElement.new key)

/-- ToJson for WebElement: the single-key object under the constant W3C
element identifier. -/
def WebElement.to_json (self : WebElement) : Json :=
  Json.Object [("element-6066-11e4-a52e-4f735466cecf", Json.String self.id)]

/-- FrameId from src/common.rs; the u16 payload of Short is Fin 65536. -/
inductive FrameId where
  | Short : Fin 65536 → FrameId
  | Element : WebElement → FrameId
  | Null : FrameId
deriving DecidableEq

/-- FrameId::from_json: a U64 within u16 range becomes Short, null becomes
Null, a string becomes an Element handle, all else fails with NoSuchFrame. -/
def FrameId.from_json (data : Json) : WebDriverResult FrameId :=
  match data with
  | .U64 x =>
    if h : x ≤ 65535 then
      .ok (.Short ⟨x, by omega⟩)
    else
      .error (WebDriverError.new .NoSuchFrame "frame id out of range")
  | .Null => .ok .Null
  | .String x => .ok (.Element (WebElement.new x))
  | _ => .error (WebDriverError.new .NoSuchFrame "frame id has unexpected type")

/-- ToJson for FrameId. -/
def FrameId.to_json : FrameId → Json
  | .Short x => .U64 x.val
  | .Element x => .String x.id
  | .Null => .Null

/-- LocatorStrategy from src/common.rs. -/
inductive LocatorStrategy where
  | CSSSelector
  | LinkText
  | PartialLinkText
  | XPath
deriving DecidableEq

/-- LocatorStrategy::from_json. -/
def LocatorStrategy.from_json (body : Json) : WebDriverResult LocatorStrategy :=
  match body.as_string with
  | none => .error (WebDriverError.new .InvalidArgument
      "Cound not convert strategy to string")
  | some s =>
    match s with
    | "css selector" => .ok .CSSSelector
    | "link text" => .ok .LinkText
    | "partial link text" => .ok .PartialLinkText
    | "xpath" => .ok .XPath
    | _ => .error (WebDriverError.new .InvalidArgument "Unknown locator strategy")

/-- Method, the hyper HTTP verb type used by the router. -/
inductive Method where
  | Options
  | Get
  | Post
  | Put
  | Delete
  | Head
  | Trace
  | Connect
  | Patch
  | Extension : String → Method
deriving DecidableEq

/-- MatchType from src/messagebuilder.rs: the route tags. -/
inductive MatchType where
  | MatchNewSession
  | MatchGet
  | MatchGetCurrentUrl
deriving DecidableEq

/-- One component of a compiled route pattern: a literal path segment, or a
named capture group matching one or more non-separator characters. -/
inductive PathComponent where
  | Literal : String → PathComponent
  | Capture : String → PathComponent
deriving DecidableEq

/-- Rust str::split on a single separator character, on character lists:
returns the (always nonempty) list of separated chunks. -/
def split_char (sep : Char) : List Char → List (List Char)
  | [] => [[]]
  | c :: cs =>
    if c = sep then
      [] :: split_char sep cs
    else
      match split_char sep cs with
      | [] => [[c]]
      | x :: xs => (c :: x) :: xs

/-- str::starts_with for a single character, on character lists. -/
def starts_with (component : List Char) (x : Char) : Bool :=
  component.head? = some x

/-- str::ends_with for a single character, on character lists. -/
def ends_with (component : List Char) (x : Char) : Bool :=
  component.getLast? = some x

/-- One iteration of the loop in RequestMatcher::compile_path: a component
starting with an opening brace must also end with a closing brace (else the
source calls fail!, modelled as none) and compiles to a capture group named
by the text between the braces; any other component is emitted verbatim. -/
def compile_component (component : List Char) : Option PathComponent :=
  if starts_with component '\x7b' then
    if ends_with component '\x7d' then
      some (.Capture (String.mk ((component.drop 1).dropLast)))
    else
      none
  else
    some (.Literal (String.mk component))

/-- The loop of RequestMatcher::compile_path over all components, aborting
at the first invalid one. -/
def compile_components : List (List Char) → Option (List PathComponent)
  | [] => some []
  | c :: cs =>
    match compile_component c with
    | none => none
    | some p => (compile_components cs).map (fun ps => p :: ps)

/-- A character that every regex flavour treats as matching itself when it
is interpolated verbatim into a pattern: ASCII alphanumerics, underscore
and hyphen (outside character classes).  Used by the conservative model of
Regex::new below. -/
def is_regex_literal_char (c : Char) : Bool :=
  c.isAlphanum || c = '_' || c = '-'

/-- A character allowed after the first one in a regex capture-group name. -/
def is_capture_name_char (c : Char) : Bool :=
  c.isAlphanum || c = '_'

/-- A capture-group name the regex library is certain to accept: nonempty,
opening with an ASCII letter, continuing with letters, digits or
underscores. -/
def valid_capture_name (name : String) : Bool :=
  match name.data with
  | [] => false
  | c :: cs => c.isAlpha && cs.all is_capture_name_char

/-- Validity of one emitted component under the conservative model of the
regex parser: a literal must consist of regex-literal characters, a
capture group must carry a valid name. -/
def regex_component_ok : PathComponent → Bool
  | .Literal s => s.data.all is_regex_literal_char
  | .Capture name => valid_capture_name name

/-- The capture-group names of a compiled component list, in order. -/
def capture_names : List PathComponent → List String
  | [] => []
  | .Literal _ :: cs => capture_names cs
  | .Capture name :: cs => name :: capture_names cs

/-- Regex::new(rv).unwrap() on the pattern string emitted by compile_path,
modelled as a conservative validity check on the emitted component list:
every component must be individually valid and the capture-group names
must be pairwise distinct (the library rejects duplicate group names).
The library accepts every component list this model accepts; rejection by
this model on other inputs is conservative, and each rejection relied on
by a theorem is one the library also produces. -/
def regex_new (components : List PathComponent) : Option (List PathComponent) :=
  if components.all regex_component_ok then
    if (capture_names components).Nodup then
      some components
    else
      none
  else
    none

/-- RequestMatcher::compile_path: split the pattern on the separator and
compile each component, then run the emitted pattern through the regex
constructor; the resulting component list stands for the regex anchored at
both ends with components joined by the separator.  none models either
abort: the fail! on an unclosed brace, or the unwrap of Regex::new. -/
def compile_path (path : String) : Option (List PathComponent) :=
  match compile_components (split_char '/' path.data) with
  | none => none
  | some components => regex_new components

/-- Safety of one split pattern component, the per-component hypothesis of
the amended registration-success claim: a brace-opened component is
brace-closed and names its capture validly, any other component consists
of regex-literal characters only. -/
def component_safe (c : List Char) : Bool :=
  if starts_with c '\x7b' then
    ends_with c '\x7d' && valid_capture_name (String.mk ((c.drop 1).dropLast))
  else
    c.all is_regex_literal_char

/-- The capture names read directly off the split pattern components. -/
def split_capture_names (l : List (List Char)) : List String :=
  l.filterMap (fun c =>
    if starts_with c '\x7b' then
      some (String.mk ((c.drop 1).dropLast))
    else
      none)

/-- Matching the anchored compiled pattern against the separated segments
of a request path: literals match exactly their text, captures match any
nonempty segment and record it under the capture name, and the segment
list must be exhausted exactly when the pattern is. -/
def components_match : List PathComponent → List String →
    Option (List (String × String))
  | [], [] => some []
  | .Literal s :: cs, seg :: segs =>
    if seg = s then components_match cs segs else none
  | .Capture name :: cs, seg :: segs =>
    if seg ≠ "" then
      (components_match cs segs).map (fun caps => (name, seg) :: caps)
    else
      none
  | _, _ => none

/-- Regex::captures for a compiled route pattern: the anchored alternation
of literal and capture components against the full path, yielding the named
captures on success. -/
def regex_captures (pattern : List PathComponent) (path : String) :
    Option (List (String × String)) :=
  components_match pattern ((split_char '/' path.data).map String.mk)

/-- RequestMatcher from src/messagebuilder.rs. -/
structure RequestMatcher where
  method : Method
  path_regexp : List PathComponent
  match_type : MatchType
deriving DecidableEq

/-- RequestMatcher::new: compiles the path pattern; none models the
registration-time abort on an invalid pattern. -/
def RequestMatcher.new (method : Method) (path : String)
    (match_type : MatchType) : Option RequestMatcher :=
  (compile_path path).map (fun path_regexp =>
    { method := method, path_regexp := path_regexp, match_type := match_type })

/-- RequestMatcher::get_match: requires the verb to equal the registered
verb, then runs the compiled pattern against the path. -/
def RequestMatcher.get_match (self : RequestMatcher) (method : Method)
    (path : String) : Option (List (String × String)) :=
  if method = self.method then
    regex_captures self.path_regexp path
  else
    none

/-- MessageBuilder from src/messagebuilder.rs: the ordered route table. -/
structure MessageBuilder where
  http_matchers : List (Method × RequestMatcher)
deriving DecidableEq

/-- MessageBuilder::new. -/
def MessageBuilder.new : MessageBuilder :=
  { http_matchers := [] }

/-- The loop of MessageBuilder::from_http: first matcher in registration
order whose verb equals the request verb and whose pattern captures the
path wins.  The source hands the winning route tag and captures to
WebDriverMessage::from_http (src/command.rs, outside the embedded core);
the model returns that pair directly. -/
def from_http_loop (method : Method) (path : String) :
    List (Method × RequestMatcher) → Option (MatchType × List (String × String))
  | [] => none
  | (match_method, matcher) :: rest =>
    if method = match_method then
      match matcher.get_match method path with
      | some captures => some (matcher.match_type, captures)
      | none => from_http_loop method path rest
    else
      from_http_loop method path rest

/-- MessageBuilder::from_http. -/
def MessageBuilder.from_http (self : MessageBuilder) (method : Method)
    (path : String) : Option (MatchType × List (String × String)) :=
  from_http_loop method path self.http_matchers

/-- MessageBuilder::add: compile and append one matcher; none models the
registration-time abort bubbling up from RequestMatcher::new. -/
def MessageBuilder.add (self : MessageBuilder) (method : Method)
    (path : String) (match_type : MatchType) : Option MessageBuilder :=
  (RequestMatcher.new method path match_type).map (fun http_matcher =>
    { http_matchers := self.http_matchers ++ [(method, http_matcher)] })

/-- get_builder from src/messagebuilder.rs: the registered route table. -/
def get_builder : Option MessageBuilder := do
  let builder := MessageBuilder.new
  let builder ← builder.add .Post "/session" .MatchNewSession
  let builder ← builder.add .Post "/session/\x7bsessionId\x7d/url" .MatchGet
  let builder ← builder.add .Get "/session/\x7bsessionId\x7d/url" .MatchGetCurrentUrl
  pure builder

/-- A concrete element encoder, Json::String, used to instantiate the
Nullable round-trip at T equal to String. -/
def string_enc : String → Json := Json.String

/-- The concrete element decoder matching string_enc. -/
def string_dec : Json → WebDriverResult String := fun j =>
  match j.as_string with
  | some s => .ok s
  | none => .error (WebDriverError.new .UnknownError "not a string")

/-- An element encoder whose image is JSON null, for a type Nullable could
be instantiated with: it satisfies the matching-decoder equation yet breaks
the Nullable round-trip. -/
def unit_enc : Unit → Json := fun _ => Json.Null

/-- The element decoder matching unit_enc on its image. -/
def unit_dec : Json → WebDriverResult Unit := fun _ => .ok ()

/-! Helper lemmas. -/

/-- A component compiles to none exactly when it opens with a brace that is
never closed, mirroring the fail! arm of compile_path. -/
theorem compile_component_eq_none (c : List Char) :
    compile_component c = none ↔
      starts_with c '\x7b' = true ∧ ends_with c '\x7d' = false := by
  unfold compile_component
  by_cases h1 : starts_with c '\x7b' <;>
    by_cases h2 : ends_with c '\x7d' <;>
      simp [h1, h2]

/-- If any component of the split pattern fails to compile, the whole
pattern fails to compile. -/
theorem compile_components_eq_none {c : List Char} {l : List (List Char)}
    (hm : c ∈ l) (hc : compile_component c = none) :
    compile_components l = none := by
  induction l with
  | nil => cases hm
  | cons d ds ih =>
    rcases List.mem_cons.mp hm with h | h
    · subst h
      simp [compile_components, hc]
    · unfold compile_components
      cases hd : compile_component d
      · rfl
      · simp [ih h]

/-- If every component of the split pattern is safe, component compilation
succeeds, every compiled component passes the regex validity check, and
the compiled capture names are the ones read off the split. -/
theorem compile_components_safe :
    ∀ l : List (List Char), (∀ c ∈ l, component_safe c = true) →
      ∃ comps, compile_components l = some comps ∧
        comps.all regex_component_ok = true ∧
        capture_names comps = split_capture_names l := by
  intro l
  induction l with
  | nil => exact fun _ => ⟨[], rfl, rfl, rfl⟩
  | cons c cs ih =>
    intro h
    obtain ⟨comps, hc, hall, hnames⟩ :=
      ih (fun d hd => h d (List.mem_cons_of_mem c hd))
    have hsafe := h c (List.mem_cons_self c cs)
    by_cases hb : starts_with c '\x7b' = true
    · rw [component_safe, if_pos hb, Bool.and_eq_true] at hsafe
      refine ⟨.Capture (String.mk ((c.drop 1).dropLast)) :: comps, ?_, ?_, ?_⟩
      · rw [compile_components, compile_component, if_pos hb, if_pos hsafe.1, hc]
        rfl
      · rw [List.all_cons, regex_component_ok, hsafe.2, hall]
        rfl
      · simp [capture_names, hnames, split_capture_names, hb]
    · rw [component_safe, if_neg hb] at hsafe
      refine ⟨.Literal (String.mk c) :: comps, ?_, ?_, ?_⟩
      · rw [compile_components, compile_component, if_neg hb, hc]
        rfl
      · simp [regex_component_ok, hsafe, hall]
      · simp [capture_names, hnames, split_capture_names, hb]

/-- The loop of MessageBuilder::from_http returns, for the first matcher in
the list whose registered verb equals the request verb and whose compiled
pattern captures the path, that route tag paired with its captures; this is
exactly a findSome? over the registration-ordered table. -/
theorem from_http_loop_eq_findSome (method : Method) (path : String) :
    ∀ matchers : List (Method × RequestMatcher),
      from_http_loop method path matchers = matchers.findSome? (fun p =>
        if method = p.1 then
          (p.2.get_match method path).map (fun captures => (p.2.match_type, captures))
        else none)
  | [] => rfl
  | (match_method, matcher) :: rest => by
    by_cases h : method = match_method
    · subst h
      rw [from_http_loop, List.findSome?]
      cases hg : matcher.get_match method path <;>
        simp [hg, from_http_loop_eq_findSome method path rest]
    · rw [from_http_loop, List.findSome?]
      simp [h, from_http_loop_eq_findSome method path rest]

/-! Claim theorems. -/

/-- C1 (counterexample): the wire-string mapping of status_code is not
injective: the two distinct statuses UnknownPath and UnknownMethod are both
rendered as the wire string for an unknown command. -/
theorem C1_wire_string_collision :
    (WebDriverError.new .UnknownPath "").status_code =
      (WebDriverError.new .UnknownMethod "").status_code ∧
    ErrorStatus.UnknownPath ≠ ErrorStatus.UnknownMethod :=
  ⟨rfl, by decide⟩

/-- C1 (amended): for every ErrorStatus value the wire string returned by
status_code is defined and non-empty, and the mapping from ErrorStatus to
wire string is injective except that UnknownPath and UnknownMethod share
one wire string. -/
theorem C1_wire_string_nonempty_almost_injective :
    (∀ e : WebDriverError, e.status_code ≠ "") ∧
    (∀ (s1 s2 : ErrorStatus) (m1 m2 : String),
      (WebDriverError.mk s1 m1).status_code = (WebDriverError.mk s2 m2).status_code →
      s1 = s2 ∨ (s1 = .UnknownPath ∧ s2 = .UnknownMethod) ∨
        (s1 = .UnknownMethod ∧ s2 = .UnknownPath)) := by
  constructor
  · intro e
    obtain ⟨s, m⟩ := e
    show (WebDriverError.mk s "").status_code ≠ ""
    revert s
    decide
  · intro s1 s2 m1 m2 h
    have key : ∀ t1 t2 : ErrorStatus,
        (WebDriverError.mk t1 "").status_code = (WebDriverError.mk t2 "").status_code →
        t1 = t2 ∨ (t1 = .UnknownPath ∧ t2 = .UnknownMethod) ∨
          (t1 = .UnknownMethod ∧ t2 = .UnknownPath) := by decide
    exact key s1 s2 h

/-- C1 (witness): the amended injectivity applied at a concrete status pair
and the nonemptiness applied at a concrete error. -/
theorem C1_wire_string_nonempty_almost_injective_witness :
    (WebDriverError.new .Timeout "x").status_code ≠ "" ∧
    (ErrorStatus.Timeout = ErrorStatus.Timeout ∨
      (ErrorStatus.Timeout = .UnknownPath ∧ ErrorStatus.Timeout = .UnknownMethod) ∨
      (ErrorStatus.Timeout = .UnknownMethod ∧ ErrorStatus.Timeout = .UnknownPath)) :=
  ⟨C1_wire_string_nonempty_almost_injective.1 (WebDriverError.new .Timeout "x"),
   C1_wire_string_nonempty_almost_injective.2 .Timeout .Timeout "a" "b" rfl⟩

/-- C2: from_http scans the registered matchers in registration order and
returns the route tag and named captures of the first whose verb equals the
request verb and whose anchored pattern matches the full path (stated as a
findSome? over the table), and none otherwise.  On the registered table:
GET on the session url path yields MatchGetCurrentUrl with the sessionId
capture, PUT on the same path yields no match, and GET on an unregistered
path yields no match. -/
theorem C2_router_first_match :
    (∀ (b : MessageBuilder) (method : Method) (path : String),
      b.from_http method path = b.http_matchers.findSome? (fun p =>
        if method = p.1 then
          (p.2.get_match method path).map (fun captures => (p.2.match_type, captures))
        else none)) ∧
    (get_builder.map fun b =>
      (b.from_http .Get "/session/abc-123/url",
       b.from_http .Put "/session/abc-123/url",
       b.from_http .Get "/session/abc-123/title")) =
    some (some (.MatchGetCurrentUrl, [("sessionId", "abc-123")]), none, none) :=
  ⟨fun b method path => from_http_loop_eq_findSome method path b.http_matchers, rfl⟩

/-- C3: FrameId::from_json maps the integer 65535 to Short 65535, rejects
65536 with NoSuchFrame, maps null to Null, maps every string to an Element
handle with that id, and rejects arrays and objects with NoSuchFrame. -/
theorem C3_frameid_from_json_boundary :
    FrameId.from_json (.U64 65535) = .ok (.Short (65535 : Fin 65536)) ∧
    FrameId.from_json (.U64 65536) =
      .error (WebDriverError.new .NoSuchFrame "frame id out of range") ∧
    FrameId.from_json .Null = .ok .Null ∧
    (∀ s : String, FrameId.from_json (.String s) = .ok (.Element (WebElement.new s))) ∧
    (∀ l : List Json, FrameId.from_json (.Array l) =
      .error (WebDriverError.new .NoSuchFrame "frame id has unexpected type")) ∧
    (∀ o : List (String × Json), FrameId.from_json (.Object o) =
      .error (WebDriverError.new .NoSuchFrame "frame id has unexpected type")) :=
  ⟨rfl, rfl, rfl, fun _ => rfl, fun _ => rfl, fun _ => rfl⟩

/-- C4: the WebElement codec round-trips every id, and encoding always
produces the object whose single key is the constant W3C element
identifier bound to the id string. -/
theorem C4_webelement_roundtrip :
    ∀ id : String,
      WebElement.from_json (WebElement.new id).to_json = .ok (WebElement.new id) ∧
      (WebElement.new id).to_json =
        Json.Object [("element-6066-11e4-a52e-4f735466cecf", Json.String id)] :=
  fun _ => ⟨rfl, rfl⟩

/-- C5 (counterexample): the Nullable round-trip fails as universally
stated: with the element type Unit encoded entirely onto JSON null, the
decoder matching that encoder recovers every element, yet the encoded
Value is decoded back as Null, not as the original Value. -/
theorem C5_nullable_roundtrip_counterexample :
    (∀ u : Unit, unit_dec (unit_enc u) = .ok u) ∧
    Nullable.from_json (Nullable.to_json unit_enc (.Value ())) unit_dec =
      .ok Nullable.Null ∧
    Nullable.from_json (Nullable.to_json unit_enc (.Value ())) unit_dec ≠
      .ok (.Value ()) := by
  refine ⟨fun _ => rfl, rfl, fun h => ?_⟩
  simp [Nullable.from_json, Nullable.to_json, unit_enc, unit_dec, Json.is_null] at h

/-- C5 (amended): for every constructible Nullable value, decoding its
encoding with the matching element decoder returns the value, provided the
element encoder never itself produces JSON null (without that proviso the
claim fails, see the counterexample): Null encodes to JSON null and decodes
back to Null, and Value x encodes as the encoding of x and decodes back to
Value x, the decoder being applied to every non-null node. -/
theorem C5_nullable_roundtrip {T : Type} (enc : T → Json)
    (f : Json → WebDriverResult T)
    (hf : ∀ x, f (enc x) = .ok x) (henc : ∀ x, enc x ≠ Json.Null) :
    ∀ v : Nullable T, Nullable.from_json (Nullable.to_json enc v) f = .ok v := by
  intro v
  cases v with
  | Null => rfl
  | Value x =>
    have hnull : (enc x).is_null = false := by
      have hx := henc x
      cases he : enc x <;> simp_all [Json.is_null]
    show Nullable.from_json (enc x) f = .ok (.Value x)
    rw [Nullable.from_json, hnull]
    simp [hf x]

/-- C5 (witness): the amended round-trip applied at the string element
codec, on a Value and on Null. -/
theorem C5_nullable_roundtrip_witness :
    Nullable.from_json (Nullable.to_json string_enc (.Value "frame")) string_dec =
      .ok (.Value "frame") ∧
    Nullable.from_json (Nullable.to_json string_enc .Null) string_dec =
      .ok Nullable.Null :=
  ⟨C5_nullable_roundtrip string_enc string_dec (fun _ => rfl)
      (fun _ h => Json.noConfusion h) (.Value "frame"),
   C5_nullable_roundtrip string_enc string_dec (fun _ => rfl)
      (fun _ h => Json.noConfusion h) .Null⟩

/-- C6: WebElement::from_json succeeds exactly on a JSON object carrying
the fixed W3C element key bound to a JSON string, yielding the WebElement
with that id, and every failure carries status InvalidArgument. -/
theorem C6_webelement_from_json_exact :
    (∀ (object : List (String × Json)) (s : String),
      object_get object "element-6066-11e4-a52e-4f735466cecf" = some (Json.String s) →
      WebElement.from_json (Json.Object object) = .ok (WebElement.new s)) ∧
    (∀ data : Json, (∃ w, WebElement.from_json data = .ok w) →
      ∃ object s, data = Json.Object object ∧
        object_get object "element-6066-11e4-a52e-4f735466cecf" = some (Json.String s) ∧
        WebElement.from_json data = .ok (WebElement.new s)) ∧
    (∀ (data : Json) (e : WebDriverError),
      WebElement.from_json data = .error e → e.status = .InvalidArgument) := by
  refine ⟨?_, ?_, ?_⟩
  · intro object s h
    simp [WebElement.from_json, Json.as_object, h, Json.as_string]
  · intro data hex
    obtain ⟨w, hw⟩ := hex
    cases data with
    | Object object =>
      cases hg : object_get object "element-6066-11e4-a52e-4f735466cecf" with
      | none => simp [WebElement.from_json, Json.as_object, hg] at hw
      | some v =>
        cases v with
        | String s =>
          exact ⟨object, s, rfl, hg,
            by simp [WebElement.from_json, Json.as_object, hg, Json.as_string]⟩
        | Null => simp [WebElement.from_json, Json.as_object, hg, Json.as_string] at hw
        | Boolean b => simp [WebElement.from_json, Json.as_object, hg, Json.as_string] at hw
        | I64 i => simp [WebElement.from_json, Json.as_object, hg, Json.as_string] at hw
        | U64 n => simp [WebElement.from_json, Json.as_object, hg, Json.as_string] at hw
        | F64 => simp [WebElement.from_json, Json.as_object, hg, Json.as_string] at hw
        | Array l => simp [WebElement.from_json, Json.as_object, hg, Json.as_string] at hw
        | Object o => simp [WebElement.from_json, Json.as_object, hg, Json.as_string] at hw
    | Null => simp [WebElement.from_json, Json.as_object] at hw
    | Boolean b => simp [WebElement.from_json, Json.as_object] at hw
    | I64 i => simp [WebElement.from_json, Json.as_object] at hw
    | U64 n => simp [WebElement.from_json, Json.as_object] at hw
    | F64 => simp [WebElement.from_json, Json.as_object] at hw
    | Array l => simp [WebElement.from_json, Json.as_object] at hw
    | String s => simp [WebElement.from_json, Json.as_object] at hw
  · intro data e he
    cases data with
    | Object object =>
      cases hg : object_get object "element-6066-11e4-a52e-4f735466cecf" with
      | none =>
        simp [WebElement.from_json, Json.as_object, hg] at he
        simp [← he, WebDriverError.new]
      | some v =>
        cases v <;>
          simp [WebElement.from_json, Json.as_object, hg, Json.as_string] at he <;>
            simp [← he, WebDriverError.new]
    | Null =>
      simp [WebElement.from_json, Json.as_object] at he
      simp [← he, WebDriverError.new]
    | Boolean b =>
      simp [WebElement.from_json, Json.as_object] at he
      simp [← he, WebDriverError.new]
    | I64 i =>
      simp [WebElement.from_json, Json.as_object] at he
      simp [← he, WebDriverError.new]
    | U64 n =>
      simp [WebElement.from_json, Json.as_object] at he
      simp [← he, WebDriverError.new]
    | F64 =>
      simp [WebElement.from_json, Json.as_object] at he
      simp [← he, WebDriverError.new]
    | Array l =>
      simp [WebElement.from_json, Json.as_object] at he
      simp [← he, WebDriverError.new]
    | String s =>
      simp [WebElement.from_json, Json.as_object] at he
      simp [← he, WebDriverError.new]

/-- C6 (witness): the success characterization applied to the concrete
single-key element object. -/
theorem C6_webelement_from_json_exact_witness :
    WebElement.from_json (Json.Object
      [("element-6066-11e4-a52e-4f735466cecf", Json.String "abc")]) =
      .ok (WebElement.new "abc") :=
  C6_webelement_from_json_exact.1
    [("element-6066-11e4-a52e-4f735466cecf", Json.String "abc")] "abc" rfl

/-- C7: every JSON parse failure converts into a WebDriverError with status
UnknownError carrying the parser-rendered message unchanged, with no finer
distinction among parse errors. -/
theorem C7_parse_error_to_unknown_error :
    ∀ err : ParserError,
      (WebDriverError.from_error err).status = .UnknownError ∧
      (WebDriverError.from_error err).message = err.rendered :=
  fun _ => ⟨rfl, rfl⟩

/-- C8: http_status is 404 for UnknownPath, 405 for UnknownMethod, and 500
for every other status. -/
theorem C8_http_status_mapping :
    (∀ m : String, (WebDriverError.new .UnknownPath m).http_status = 404) ∧
    (∀ m : String, (WebDriverError.new .UnknownMethod m).http_status = 405) ∧
    (∀ (s : ErrorStatus) (m : String), s ≠ .UnknownPath → s ≠ .UnknownMethod →
      (WebDriverError.new s m).http_status = 500) := by
  refine ⟨fun _ => rfl, fun _ => rfl, ?_⟩
  intro s m h1 h2
  cases s <;> first | exact absurd rfl h1 | exact absurd rfl h2 | rfl

/-- C8 (witness): the mapping applied at concrete statuses. -/
theorem C8_http_status_mapping_witness :
    (WebDriverError.new .UnknownPath "").http_status = 404 ∧
    (WebDriverError.new .UnknownMethod "").http_status = 405 ∧
    (WebDriverError.new .Timeout "").http_status = 500 :=
  ⟨C8_http_status_mapping.1 "", C8_http_status_mapping.2.1 "",
   C8_http_status_mapping.2.2 .Timeout "" (by decide) (by decide)⟩

/-- C9 (counterexample): the original claim is false at the pattern whose
second component interpolates an unmatched parenthesis into the emitted
regex: the pattern contains no opening brace at all, so every brace-opened
component is vacuously brace-closed and the original claim asserts that
compilation succeeds, yet registration aborts in the regex constructor
(the source panics in the unwrap of Regex::new at that input). -/
theorem C9_compile_path_counterexample :
    "/a(b".data.all (fun c => c != '\x7b') = true ∧
    compile_path "/a(b" = none :=
  ⟨by decide, by decide⟩

/-- C9 (amended): a pattern with a component that opens a brace and never
closes it fails at registration time, already inside compile_path, and the
failure propagates to RequestMatcher::new, the registration entry point;
registration can also abort when the regex constructor rejects the emitted
pattern, and every pattern all of whose components are safe, meaning each
brace-opened component is brace-closed and names its capture with a
distinct identifier-shaped name and each other component consists of
regex-literal characters, compiles successfully. -/
theorem C9_compile_path_registration :
    (∀ path : String, ∀ c ∈ split_char '/' path.data,
      starts_with c '\x7b' = true → ends_with c '\x7d' = false →
      compile_path path = none) ∧
    (∀ path : String,
      (∀ c ∈ split_char '/' path.data, component_safe c = true) →
      (split_capture_names (split_char '/' path.data)).Nodup →
      (compile_path path).isSome = true) ∧
    (∀ (method : Method) (path : String) (match_type : MatchType),
      compile_path path = none →
      RequestMatcher.new method path match_type = none) := by
  refine ⟨?_, ?_, ?_⟩
  · intro path c hm h1 h2
    rw [compile_path, compile_components_eq_none hm
      ((compile_component_eq_none c).mpr ⟨h1, h2⟩)]
  · intro path hsafe hnodup
    obtain ⟨comps, hc, hall, hnames⟩ :=
      compile_components_safe (split_char '/' path.data) hsafe
    rw [compile_path, hc]
    show (regex_new comps).isSome = true
    unfold regex_new
    rw [if_pos hall, if_pos (show (capture_names comps).Nodup by rw [hnames]; exact hnodup)]
    rfl
  · intro method path match_type h
    simp [RequestMatcher.new, h]

/-- C9 (witness): the registration behaviour at a concrete broken pattern
and at the concrete registered session url pattern. -/
theorem C9_compile_path_registration_witness :
    compile_path "/session/\x7bsessionId" = none ∧
    (compile_path "/session/\x7bsessionId\x7d/url").isSome = true ∧
    RequestMatcher.new .Post "/session/\x7bsessionId" .MatchGet = none := by
  refine ⟨?_, ?_, ?_⟩
  · exact C9_compile_path_registration.1 "/session/\x7bsessionId"
      "\x7bsessionId".data (by decide) (by decide) (by decide)
  · exact C9_compile_path_registration.2.1 "/session/\x7bsessionId\x7d/url"
      (by decide) (by decide)
  · exact C9_compile_path_registration.2.2 .Post "/session/\x7bsessionId"
      .MatchGet (C9_compile_path_registration.1 "/session/\x7bsessionId"
        "\x7bsessionId".data (by decide) (by decide) (by decide))

/-- C10: the FrameId codec round-trips every value; Element encodes as the
bare JSON string holding the handle id, never as the single-key element
object, and Short encodes as the JSON unsigned integer. -/
theorem C10_frameid_roundtrip :
    (∀ v : FrameId, FrameId.from_json v.to_json = .ok v) ∧
    (∀ e : WebElement, FrameId.to_json (.Element e) = Json.String e.id) ∧
    (∀ x : Fin 65536, FrameId.to_json (.Short x) = Json.U64 x.val) := by
  refine ⟨?_, fun _ => rfl, fun _ => rfl⟩
  intro v
  cases v with
  | Short x =>
    have hx : x.val ≤ 65535 := Nat.le_of_lt_succ x.isLt
    simp [FrameId.to_json, FrameId.from_json, hx]
  | Element x => rfl
  | Null => rfl

end Wires
